import Mathlib

/-!
Shallow embedding of the BierBelly calorie-tracking backend (`src/app.py`)
and proofs of its specification claims.

Modelling conventions:
* SQLite tables become lists of row structures; `SELECT ... WHERE` becomes
  `List.filter` / `List.find?`, `UPDATE` becomes `List.map`, `DELETE`
  becomes `List.filter` with the negated predicate.
* Python floats are modelled as exact rationals (`Rat`); Python's builtin
  `round` (round-half-to-even, "banker's rounding") is `pyRound`.
* Machine-generated UUIDs are passed in as explicit `String` arguments.
* A numeric form field, as consumed by Python's `int(...)` / `float(...)`
  parsing, is modelled by `FormNum`, whose constructors classify the raw
  string by which parses succeed (finite literals only; the pathological
  literals "nan"/"inf" are outside the model).
* Each Flask route becomes a pure function from the database (plus the
  request data) to a response together with the new database.
-/

namespace BierBelly

/-- Python's builtin `round`: round half to even, returning an integer. -/
def pyRound (q : Rat) : Int :=
  let f : Int := ⌊q⌋
  let r : Rat := q - (f : Rat)
  if r < 1/2 then f
  else if r > 1/2 then f + 1
  else if f % 2 = 0 then f else f + 1

/-! ### Static configuration (DRINK_PRESETS, EXERCISE_METS) -/

structure DrinkPreset where
  name : String
  abv : Rat
  volume_oz : Rat
deriving DecidableEq, Repr

def DRINK_PRESETS : List (String × DrinkPreset) :=
  [ ("beer", ⟨"Standard Beer", 5, 12⟩),
    ("ipa", ⟨"Imperial Pale Ale", 7, 12⟩),
    ("wine", ⟨"Standard Wine", 12, 5⟩),
    ("shot_spirit", ⟨"Shot (Spirit)", 40, 3/2⟩),
    ("mixed_drink", ⟨"Mixed Drink (Base Spirit)", 40, 3/2⟩),
    ("mixed_drink_diet", ⟨"Mixed Drink (Diet Base Spirit)", 40, 3/2⟩) ]

/-- `DRINK_PRESETS[drink_type]`, `None` when the key is absent
(`drink_type not in DRINK_PRESETS`). -/
def presetOf (drink_type : String) : Option DrinkPreset :=
  (DRINK_PRESETS.find? (fun p => p.1 == drink_type)).map (·.2)

def EXERCISE_METS : List (String × Rat) :=
  [ ("walking", 7/2),
    ("running", 8),
    ("biking", 6),
    ("swimming", 7),
    ("strength_training", 9/2) ]

/-- `EXERCISE_METS[t]`, `None` when the key is absent. -/
def metOf (t : String) : Option Rat :=
  (EXERCISE_METS.find? (fun p => p.1 == t)).map (·.2)

/-! ### Database rows -/

/-- The `metrics` JSON blob; `set_user_metrics` requires exactly these
fields (`age`, `height_cm`, `weight_kg`, `sex`). -/
structure Metrics where
  age : Rat
  height_cm : Rat
  weight_kg : Rat
  sex : String
deriving DecidableEq, Repr

structure UserRow where
  email : String
  password : String
  metrics : Option Metrics
deriving DecidableEq, Repr

structure SessionRow where
  id : String
  user_email : String
  name : String
  date : String
  total_calories : Int
deriving DecidableEq, Repr

structure DrinkRow where
  id : String
  session_id : String
  name : String
  calories : Int
  abv : Rat
  volume_oz : Rat
  count : Int
deriving DecidableEq, Repr

structure ExerciseRow where
  id : String
  session_id : String
  type : String
  minutes : Rat
  calories_burned : Int
deriving DecidableEq, Repr

/-- The whole SQLite database. -/
structure DB where
  users : List UserRow
  sessions : List SessionRow
  drinks : List DrinkRow
  exercises : List ExerciseRow
deriving DecidableEq, Repr

/-- HTTP-level outcome of a route: a success payload, or an error status
code with its JSON error message. -/
inductive Resp (α : Type) where
  | ok (val : α)
  | err (code : Nat) (msg : String)
deriving DecidableEq, Repr

def Resp.isOk {α : Type} : Resp α → Bool
  | .ok _ => true
  | .err _ _ => false

/-! ### Domain calculators (`calculate_calories`,
`calculate_burned_calories`, `update_session_calories`) -/

/-- `calculate_calories(abv, volume_oz)`:
`volume_L = volume_oz * 0.0295735`;
`round(volume_L * (abv / 100) * 789 * 7)`. -/
def calculate_calories (abv volume_oz : Rat) : Int :=
  let volume_L := volume_oz * (295735 / 10000000)
  pyRound (volume_L * (abv / 100) * 789 * 7)

/-- `calculate_burned_calories(met, weight_kg, minutes)`:
`time_hours = minutes / 60`; `round(met * weight_kg * time_hours)`. -/
def calculate_burned_calories (met weight_kg minutes : Rat) : Int :=
  let time_hours := minutes / 60
  pyRound (met * weight_kg * time_hours)

/-- `update_session_calories(db, session_id)`: re-reads every drink row of
the session, sums `calories * count`, writes the sum into
`sessions.total_calories` and returns it together with the new database. -/
def update_session_calories (db : DB) (session_id : String) : DB × Int :=
  let new_total :=
    (db.drinks.filter (fun d => d.session_id == session_id)).foldl
      (fun acc d => acc + d.calories * d.count) 0
  let sessions' := db.sessions.map
    (fun s => if s.id == session_id then { s with total_calories := new_total } else s)
  ({ db with sessions := sessions' }, new_total)

/-! ### Request-level input modelling

Every route below is modelled for an authenticated caller: the
`get_current_user_email()` guard (401 when not logged in) is factored out,
and the caller's email is an explicit argument. -/

/-- A numeric text form field, classified by which of Python's `int(s)` /
`float(s)` parses accept it.  Finite literals only ("nan"/"inf" are not
modelled). -/
inductive FormNum where
  /-- field absent, or present as the empty string (both falsy) -/
  | missing
  /-- accepted by both `int(s)` and `float(s)`, with value `n` -/
  | intStr (n : Int)
  /-- accepted by `float(s)` but rejected by `int(s)` (e.g. "2.5") -/
  | floatStr (q : Rat)
  /-- rejected by both parses (e.g. "abc"); `float(s)` raises `ValueError` -/
  | badStr (s : String)
deriving DecidableEq, Repr

/-- `float(request.form.get(f))`: `none` means the call raises
(`TypeError` on a missing field, `ValueError` on a non-numeric one). -/
def FormNum.toFloat : FormNum → Option Rat
  | .missing => none
  | .intStr n => some (n : Rat)
  | .floatStr q => some q
  | .badStr _ => none

/-- The mixed-drink shot-count resolution
`count = int(count_str) if count_str and float(count_str) >= 1 else 1`
guarded by `except ValueError`: `none` means the `ValueError` handler fires
(HTTP 400). -/
def parse_shot_count : FormNum → Option Int
  | .missing => some 1                            -- falsy ⇒ else-branch ⇒ 1
  | .intStr n => if 1 ≤ n then some n else some 1
  | .floatStr q => if 1 ≤ q then none else some 1 -- `int(s)` raises ValueError
  | .badStr _ => none                             -- `float(s)` raises ValueError

/-- Python f-string `{q:.1f}` on a (decimal-exact) value: one digit after
the point, rounding the tenths half-to-even.  Only ever applied to
non-negative drink data. -/
def fmt1 (q : Rat) : String :=
  let n := pyRound (q * 10)
  toString (n / 10) ++ "." ++ toString (n % 10)

/-- Python `custom or fallback`: the fallback is used when the custom value
is `None` or the empty string (falsy). -/
def strOr (custom : Option String) (fallback : String) : String :=
  match custom with
  | some s => if s == "" then fallback else s
  | none => fallback

/-- The Flask cookie session (identity/auth session) fields the modelled
routes touch. -/
structure FlaskSess where
  logged_in : Bool
  user_email : Option String
  current_session_id : Option String
  permanent : Bool
deriving DecidableEq, Repr

/-! ### Routes: auth and user metrics -/

/-- `POST /register`.  A duplicate email is rejected with 409 before any
write; otherwise the user row is inserted and the caller is auto-logged-in. -/
def register (db : DB) (fs : FlaskSess) (email password : String) :
    Resp String × DB × FlaskSess :=
  if (db.users.find? (fun u => u.email == email)).isSome then
    (.err 409 "User already exists", db, fs)
  else
    (.ok "Registration successful",
     { db with users := db.users ++ [⟨email, password, none⟩] },
     { logged_in := true, user_email := some email,
       current_session_id := none, permanent := true })

/-- The `ORDER BY date DESC LIMIT 1` query of `login`: the id of the
caller's most recently dated session (first such row on ties; SQLite leaves
tie order unspecified). -/
def latest_session_id (db : DB) (email : String) : Option String :=
  match db.sessions.filter (fun s => s.user_email == email) with
  | [] => none
  | s :: ss => some ((ss.foldl (fun best t => if best.date < t.date then t else best) s).id)

/-- `POST /login`.  A missing user and a wrong password produce the one
401 response (`"Invalid email or password"`). -/
def login (db : DB) (fs : FlaskSess) (email password : String) (remember : Bool) :
    Resp String × FlaskSess :=
  match db.users.find? (fun u => u.email == email) with
  | none => (.err 401 "Invalid email or password", fs)
  | some user =>
    if user.password != password then (.err 401 "Invalid email or password", fs)
    else
      (.ok "Login successful",
       { logged_in := true, user_email := some email,
         current_session_id := latest_session_id db email, permanent := remember })

/-- The JSON body of `set_user_metrics`; the handler checks that all four
required fields are present. -/
structure MetricsForm where
  age : Option Rat
  height_cm : Option Rat
  weight_kg : Option Rat
  sex : Option String
deriving DecidableEq, Repr

/-- `POST /set_user_metrics`: 400 when a required field is missing, else
`UPDATE users SET metrics = ? WHERE email = ?`. -/
def set_user_metrics (db : DB) (user_email : String) (data : MetricsForm) :
    Resp String × DB :=
  match data.age, data.height_cm, data.weight_kg, data.sex with
  | some a, some h, some w, some sx =>
    (.ok "Metrics saved",
     { db with users := db.users.map (fun u =>
         if u.email == user_email then { u with metrics := some ⟨a, h, w, sx⟩ } else u) })
  | _, _, _, _ => (.err 400 "Missing required metrics data", db)

/-! ### Routes: sessions -/

/-- `DELETE /delete_session/<session_id>`: 404 when the session is missing
or not owned; else the handler-enforced cascade deletes the session's
drinks, its exercises and the session row, and clears the auth session's
current-session pointer when it pointed at the deleted id. -/
def delete_session (db : DB) (fs : FlaskSess) (user_email session_id : String) :
    Resp String × DB × FlaskSess :=
  match db.sessions.find? (fun s => s.id == session_id) with
  | none => (.err 404 "Session not found or unauthorized", db, fs)
  | some session_check =>
    if session_check.user_email != user_email then
      (.err 404 "Session not found or unauthorized", db, fs)
    else
      let db' : DB :=
        { db with
          drinks := db.drinks.filter (fun d => !(d.session_id == session_id)),
          exercises := db.exercises.filter (fun e => !(e.session_id == session_id)),
          sessions := db.sessions.filter (fun s => !(s.id == session_id)) }
      let fs' := if fs.current_session_id == some session_id then
          { fs with current_session_id := none } else fs
      (.ok "Session and associated data deleted successfully", db', fs')

/-! ### Routes: drinks -/

/-- The calorie computation of `add_drink` (step 3): flat 100-kcal baseline
for the shot/mixed-drink family, the alcohol formula otherwise, then the
per-type offsets applied in source order. -/
def drink_calories_per_serving (drink_type : String) (abv volume_oz : Rat) : Int :=
  let alcohol_calories_per_serving := calculate_calories abv volume_oz
  let c0 : Int :=
    if drink_type == "shot_spirit" || drink_type == "mixed_drink" ||
       drink_type == "mixed_drink_diet" then 100
    else alcohol_calories_per_serving
  let c1 := if drink_type == "mixed_drink" then c0 + 50 else c0
  let c2 := if drink_type == "beer" then c1 + 20 else c1
  let c3 := if drink_type == "wine" then c2 + 30 else c2
  if drink_type == "ipa" then c3 + 75 else c3

/-- Steps 3-4 of `add_drink`: compute per-serving calories, insert the
drink row, and synchronously recompute the session's cached total. -/
def insert_drink (db : DB) (session_id drink_id drink_type name : String)
    (abv volume_oz : Rat) (count : Int) : Resp DrinkRow × DB :=
  let calories := drink_calories_per_serving drink_type abv volume_oz
  let new_drink : DrinkRow :=
    ⟨drink_id, session_id, name, calories, abv, volume_oz, count⟩
  let db1 := { db with drinks := db.drinks ++ [new_drink] }
  let db2 := (update_session_calories db1 session_id).1
  (.ok new_drink, db2)

/-- `POST /add_drink/<session_id>` for an authenticated caller; the
generated UUID is the explicit `drink_id` argument.  (The
`abv is None or volume_oz is None` re-check of the source is unreachable
here: presets are total and parse failures have already returned 400.) -/
def add_drink (db : DB) (user_email session_id drink_id : String)
    (drink_type : String) (custom_name : Option String)
    (custom_abv liquid_ounces : FormNum) : Resp DrinkRow × DB :=
  if (db.sessions.find? (fun s => s.id == session_id && s.user_email == user_email)).isNone then
    (.err 404 "Session not found or unauthorized", db)
  else
    match presetOf drink_type with
    | none => (.err 400 "Invalid drink type", db)
    | some preset =>
      if drink_type == "mixed_drink" || drink_type == "mixed_drink_diet" then
        -- mixed drinks: ABV/volume pinned to the preset, the form's
        -- liquid_ounces field is reinterpreted as the shot count
        match parse_shot_count liquid_ounces with
        | none => (.err 400 "Invalid number for shots count", db)
        | some count =>
          let base_name := (preset.name.replace "(Base Spirit)" "").trim
          let name_details :=
            "(" ++ toString count ++ " shots, " ++ fmt1 preset.abv ++ "% ABV Base)"
          let final_drink_name := (strOr custom_name base_name).trim ++ " " ++ name_details
          insert_drink db session_id drink_id drink_type final_drink_name
            preset.abv preset.volume_oz count
      else
        match (if drink_type == "shot_spirit" then some (preset.abv, preset.volume_oz)
               else match custom_abv.toFloat, liquid_ounces.toFloat with
                    | some a, some v => some (a, v)
                    | _, _ => none) with
        | none => (.err 400 "Missing or Invalid number for ABV or Volume", db)
        | some (abv, volume_oz) =>
          let name_details := "(" ++ fmt1 volume_oz ++ "oz, " ++ fmt1 abv ++ "%)"
          let final_drink_name := (strOr custom_name preset.name).trim ++ " " ++ name_details
          insert_drink db session_id drink_id drink_type final_drink_name abv volume_oz 1

/-- Success payload of `update_drink`: either the refreshed count or the
removal notice. -/
inductive DrinkUpdate where
  | counted (id : String) (calories : Int) (msg : String) (count : Int)
  | removed (msg : String) (removed_id : String)
deriving DecidableEq, Repr

/-- `POST /update_drink/<session_id>/<drink_id>`: increment adds one,
decrement subtracts one and deletes the row when the result is ≤ 0, any
other action is 400 with no write; every mutating branch ends in
`update_session_calories`. -/
def update_drink (db : DB) (user_email session_id drink_id : String) (action : String) :
    Resp DrinkUpdate × DB :=
  let found := db.drinks.find? (fun d => d.id == drink_id && d.session_id == session_id)
  let owned := db.sessions.any (fun s => s.id == session_id && s.user_email == user_email)
  match found, owned with
  | some drink_row, true =>
    if action == "increment" then
      let new_count := drink_row.count + 1
      let db1 := { db with drinks := db.drinks.map fun d =>
                    if d.id == drink_id then { d with count := new_count } else d }
      let db2 := (update_session_calories db1 session_id).1
      (.ok (.counted drink_id drink_row.calories "Drink count incremented" new_count), db2)
    else if action == "decrement" then
      let new_count := drink_row.count - 1
      if new_count ≤ 0 then
        let db1 := { db with drinks := db.drinks.filter (fun d => !(d.id == drink_id)) }
        let db2 := (update_session_calories db1 session_id).1
        (.ok (.removed "Drink removed" drink_id), db2)
      else
        let db1 := { db with drinks := db.drinks.map fun d =>
                      if d.id == drink_id then { d with count := new_count } else d }
        let db2 := (update_session_calories db1 session_id).1
        (.ok (.counted drink_id drink_row.calories "Drink count decremented" new_count), db2)
    else
      (.err 400 "Invalid action specified", db)
  | _, _ => (.err 404 "Drink ID not found in session or unauthorized", db)

/-! ### Routes: exercises -/

/-- `POST /add_exercise/<session_id>`; `minutes_raw` models the JSON
`minutes` value as an optional number (a string-typed value that fails
`float()` is not modelled).  Python's `not minutes_raw` treats both an
absent value and 0 as falsy. -/
def add_exercise (db : DB) (user_email session_id exercise_id : String)
    (exercise_type : String) (minutes_raw : Option Rat) : Resp ExerciseRow × DB :=
  match db.sessions.find? (fun s => s.id == session_id) with
  | none => (.err 404 "Session not found or unauthorized", db)
  | some session_check =>
    if session_check.user_email != user_email then
      (.err 404 "Session not found or unauthorized", db)
    else
      match (db.users.find? (fun u => u.email == user_email)).bind (·.metrics) with
      | none =>
        (.err 400 "Metrics not set. Please set metrics before logging exercise.", db)
      | some metrics =>
        let weight_kg := metrics.weight_kg
        match metOf exercise_type, minutes_raw with
        | some met, some minutes =>
          if minutes == 0 then (.err 400 "Invalid exercise type or minutes", db)
          else if minutes ≤ 0 then (.err 400 "Minutes must be a positive number", db)
          else
            let calories_burned := calculate_burned_calories met weight_kg minutes
            let new_exercise : ExerciseRow :=
              ⟨exercise_id, session_id, exercise_type, minutes, calories_burned⟩
            (.ok new_exercise, { db with exercises := db.exercises ++ [new_exercise] })
        | _, _ => (.err 400 "Invalid exercise type or minutes", db)

/-- Success payload of `update_exercise`. -/
inductive ExerciseUpdate where
  | updated (id : String) (minutes : Rat) (calories_burned : Int)
  | removed (removed_id : String)
deriving DecidableEq, Repr

/-- `POST /update_exercise/<session_id>/<exercise_id>`: a 10-minute step;
a decrement to ≤ 0 minutes deletes the row, otherwise the minutes and the
recomputed (current-weight) `calories_burned` are persisted; an unknown
action is 400 with no write.  The 500 branches model the uncaught
`json.loads(None)` / `EXERCISE_METS[...]` exceptions of the source, which
are unreachable for rows created by `add_exercise`. -/
def update_exercise (db : DB) (user_email session_id exercise_id : String)
    (action : String) : Resp ExerciseUpdate × DB :=
  let found := db.exercises.find? (fun e => e.id == exercise_id && e.session_id == session_id)
  let owned := db.sessions.any (fun s => s.id == session_id && s.user_email == user_email)
  match found, owned with
  | some exercise_row, true =>
    match (db.users.find? (fun u => u.email == user_email)).bind (·.metrics) with
    | none => (.err 500 "Internal Server Error", db)
    | some metrics =>
      let weight_kg := metrics.weight_kg
      match metOf exercise_row.type with
      | none => (.err 500 "Internal Server Error", db)
      | some met =>
        let minute_change : Rat := 10
        if action == "increment" || action == "decrement" then
          let new_minutes :=
            if action == "increment" then exercise_row.minutes + minute_change
            else exercise_row.minutes - minute_change
          if new_minutes ≤ 0 then
            (.ok (.removed exercise_id),
             { db with exercises := db.exercises.filter (fun e => !(e.id == exercise_id)) })
          else
            let new_calories_burned := calculate_burned_calories met weight_kg new_minutes
            (.ok (.updated exercise_id new_minutes new_calories_burned),
             { db with exercises := db.exercises.map fun e =>
                if e.id == exercise_id then
                  { e with minutes := new_minutes, calories_burned := new_calories_burned }
                else e })
        else
          (.err 400 "Invalid action specified", db)
  | _, _ => (.err 404 "Exercise not found in session or unauthorized", db)

/-! ### Routes: dashboard -/

/-- The dashboard JSON payload. -/
structure Dashboard where
  session_name : String
  total_calories_consumed : Int
  total_calories_burned : Int
  net_calories : Int
  drinks : List DrinkRow
  logged_exercises : List ExerciseRow
  exercise_times : List (String × Int)
deriving DecidableEq, Repr

/-- `GET /get_dashboard_data/<session_id>` (read-only): cached consumed
total, live-summed burned total, their difference as net calories, and the
per-type equivalent burn times for `max(0, net)`.  (The SQL `ORDER BY`
clauses only affect row order, which the sums ignore; rows are kept in
store order here.) -/
def get_dashboard_data (db : DB) (user_email session_id : String) : Resp Dashboard :=
  match db.sessions.find? (fun s => s.id == session_id && s.user_email == user_email) with
  | none => .err 404 "Session not found or unauthorized"
  | some session_row =>
    match (db.users.find? (fun u => u.email == user_email)).bind (·.metrics) with
    | none => .err 400 "Metrics not set"
    | some metrics =>
      let total_calories_consumed := session_row.total_calories
      let drinks_list := db.drinks.filter (fun d => d.session_id == session_id)
      let logged_exercises := db.exercises.filter (fun e => e.session_id == session_id)
      let total_calories_burned := (logged_exercises.map (·.calories_burned)).sum
      let net_calories := total_calories_consumed - total_calories_burned
      let remaining_calories_to_burn := max 0 net_calories
      let exercise_times := EXERCISE_METS.map fun p =>
        if remaining_calories_to_burn > 0 then
          (p.1, pyRound ((remaining_calories_to_burn : Rat) * 60 / (p.2 * metrics.weight_kg)))
        else (p.1, 0)
      .ok { session_name := session_row.name,
            total_calories_consumed := total_calories_consumed,
            total_calories_burned := total_calories_burned,
            net_calories := net_calories,
            drinks := drinks_list,
            logged_exercises := logged_exercises,
            exercise_times := exercise_times }

/-! ### Spec-side definitions (transcribed from the specification's words,
for refinement comparisons against the code-side definitions above) -/

/-- The spec's alcohol-calorie formula:
`round(v*0.0295735*(a/100)*789*7)`. -/
def spec_alcohol_calories (a v : Rat) : Int :=
  pyRound (v * (295735 / 10000000) * (a / 100) * 789 * 7)

/-- The spec's exercise-calorie formula:
`round(met * weight_kg * (minutes/60))`. -/
def spec_exercise_calories (met weight_kg minutes : Rat) : Int :=
  pyRound (met * weight_kg * (minutes / 60))

/-- The spec's per-serving drink-calorie policy: the alcohol formula for
beer/wine/ipa and a flat 100-kcal baseline for the shot/mixed family, plus
the per-type offsets (mixed_drink +50, beer +20, wine +30, ipa +75, none
for mixed_drink_diet and shot_spirit). -/
def spec_per_serving_calories (drink_type : String) (abv volume_oz : Rat) : Int :=
  if drink_type == "beer" then calculate_calories abv volume_oz + 20
  else if drink_type == "wine" then calculate_calories abv volume_oz + 30
  else if drink_type == "ipa" then calculate_calories abv volume_oz + 75
  else if drink_type == "mixed_drink" then 100 + 50
  else 100

/-- The spec's equivalent-burn-time rule for one exercise type:
`round((max(net,0) * 60) / (met * weight_kg))`, with 0 whenever
`net ≤ 0`. -/
def spec_equiv_minutes (net : Int) (met weight_kg : Rat) : Int :=
  if net ≤ 0 then 0
  else pyRound (((max net 0 : Int) : Rat) * 60 / (met * weight_kg))

/-- The invariant of claim C1: every session row whose id is `session_id`
carries exactly the sum of `calories * count` over the drink rows that
currently belong to that session. -/
def session_drinks_total (db : DB) (session_id : String) : Int :=
  ((db.drinks.filter (fun d => d.session_id == session_id)).map
    (fun d => d.calories * d.count)).sum

def session_total_ok (db : DB) (session_id : String) : Prop :=
  ∀ s ∈ db.sessions, s.id = session_id →
    s.total_calories = session_drinks_total db session_id

/-! ### Helper lemmas -/

theorem foldl_add_eq (l : List DrinkRow) (init : Int) :
    l.foldl (fun acc d => acc + d.calories * d.count) init =
    init + (l.map (fun d => d.calories * d.count)).sum := by
  induction l generalizing init with
  | nil => simp
  | cons d l ih => simp [List.foldl_cons, ih]; ring

/-- `update_session_calories` leaves the drink (and user and exercise)
tables untouched and re-establishes the cached-total invariant. -/
theorem update_session_calories_restores (db : DB) (sid : String) :
    (update_session_calories db sid).1.drinks = db.drinks ∧
    (update_session_calories db sid).1.users = db.users ∧
    (update_session_calories db sid).1.exercises = db.exercises ∧
    session_total_ok (update_session_calories db sid).1 sid := by
  refine ⟨rfl, rfl, rfl, ?_⟩
  intro s hs hid
  simp only [update_session_calories, List.mem_map] at hs
  obtain ⟨t, _, rfl⟩ := hs
  by_cases h : t.id == sid
  · simp only [h, if_pos]
    simp only [session_drinks_total, update_session_calories, foldl_add_eq,
      zero_add]
  · exfalso
    simp only [h, Bool.false_eq_true, if_neg] at hid
    · exact absurd hid (by simpa using h)

/-- Every shot count that `parse_shot_count` accepts is at least 1. -/
theorem parse_shot_count_ge_one (inp : FormNum) (c : Int)
    (h : parse_shot_count inp = some c) : 1 ≤ c := by
  cases inp with
  | missing => simp [parse_shot_count] at h; omega
  | intStr n =>
    by_cases hn : 1 ≤ n
    · simp [parse_shot_count, hn] at h; omega
    · simp [parse_shot_count, hn] at h; omega
  | floatStr q =>
    by_cases hq : 1 ≤ q
    · simp [parse_shot_count, hq] at h
    · simp [parse_shot_count, hq] at h; omega
  | badStr s => simp [parse_shot_count] at h

/-! ### Claims -/

/-- Claim C3: for every ABV `a ∈ [0,100]` and volume `v > 0`, the
alcohol-calorie calculator returns `round(v * 0.0295735 * (a/100) * 789 * 7)`
(Python's round-half-to-even), deterministically. -/
theorem C3_alcohol_calorie_formula (a v : Rat)
    (h0 : 0 ≤ a) (h100 : a ≤ 100) (hv : 0 < v) :
    calculate_calories a v = spec_alcohol_calories a v := rfl

theorem C3_alcohol_calorie_formula_witness :
    (0:Rat) ≤ 5 ∧ (5:Rat) ≤ 100 ∧ (0:Rat) < 12 ∧
    calculate_calories 5 12 = spec_alcohol_calories 5 12 ∧
    calculate_calories 5 12 = 98 :=
  ⟨by norm_num, by norm_num, by norm_num,
   C3_alcohol_calorie_formula 5 12 (by norm_num) (by norm_num) (by norm_num),
   by norm_num [calculate_calories, pyRound]⟩

/-- Claim C7: for every `met`, `weight_kg` and `minutes`, the
exercise-calorie calculator returns `round(met * weight_kg * (minutes/60))`
deterministically; e.g. MET 8.0 for 30 minutes at 70 kg yields 280. -/
theorem C7_burned_calorie_formula :
    (∀ met weight_kg minutes : Rat,
      calculate_burned_calories met weight_kg minutes =
      spec_exercise_calories met weight_kg minutes) ∧
    calculate_burned_calories 8 70 30 = 280 :=
  ⟨fun _ _ _ => rfl, by norm_num [calculate_burned_calories, pyRound]⟩

/-- Claim C4: for every accepted drink type, the stored per-serving
calories follow the alcohol formula on the effective ABV/volume for
beer/wine/ipa, a flat 100-kcal baseline for shot_spirit / mixed_drink /
mixed_drink_diet, plus the fixed per-type offset (mixed_drink +50, beer
+20, wine +30, ipa +75, none otherwise); e.g. beer at 5.0% ABV and 12 oz
yields 118 kcal per serving. -/
theorem C4_per_serving_calories :
    (∀ drink_type ∈ ["beer", "ipa", "wine", "shot_spirit", "mixed_drink",
                     "mixed_drink_diet"],
      ∀ abv volume_oz : Rat,
        drink_calories_per_serving drink_type abv volume_oz =
        spec_per_serving_calories drink_type abv volume_oz) ∧
    drink_calories_per_serving "beer" 5 12 = 118 := by
  constructor
  · intro t ht abv volume_oz
    fin_cases ht <;> rfl
  · norm_num [drink_calories_per_serving, calculate_calories, pyRound]
    decide

theorem C4_per_serving_calories_witness :
    "wine" ∈ ["beer", "ipa", "wine", "shot_spirit", "mixed_drink",
              "mixed_drink_diet"] ∧
    drink_calories_per_serving "wine" 12 5 =
      spec_per_serving_calories "wine" 12 5 :=
  ⟨by simp, C4_per_serving_calories.1 "wine" (by simp) 12 5⟩

/-- Every drink insertion re-establishes the cached-total invariant. -/
theorem insert_drink_total_ok (db : DB) (sid did t name : String)
    (abv vol : Rat) (count : Int) :
    session_total_ok (insert_drink db sid did t name abv vol count).2 sid := by
  exact (update_session_calories_restores
    { db with drinks := db.drinks ++
        [⟨did, sid, name, drink_calories_per_serving t abv vol, abv, vol, count⟩] }
    sid).2.2.2

/-- A completed `add_drink` re-establishes the cached-total invariant. -/
theorem add_drink_total_ok (db : DB) (email sid drink_id drink_type : String)
    (custom_name : Option String) (cabv loz : FormNum) (r : Resp DrinkRow) (db' : DB)
    (h : add_drink db email sid drink_id drink_type custom_name cabv loz = (r, db'))
    (hok : r.isOk = true) : session_total_ok db' sid := by
  unfold add_drink at h
  split at h
  · cases h; simp [Resp.isOk] at hok
  · split at h
    · cases h; simp [Resp.isOk] at hok
    · split at h
      · split at h
        · cases h; simp [Resp.isOk] at hok
        · have h2 := congrArg Prod.snd h
          dsimp only at h2
          exact h2 ▸ insert_drink_total_ok _ _ _ _ _ _ _ _
      · split at h
        · cases h; simp [Resp.isOk] at hok
        · have h2 := congrArg Prod.snd h
          dsimp only at h2
          exact h2 ▸ insert_drink_total_ok _ _ _ _ _ _ _ _

/-- A completed `update_drink` (increment, decrement, or
delete-on-decrement) re-establishes the cached-total invariant. -/
theorem update_drink_total_ok (db : DB) (email sid did action : String)
    (r : Resp DrinkUpdate) (db' : DB)
    (h : update_drink db email sid did action = (r, db'))
    (hok : r.isOk = true) : session_total_ok db' sid := by
  unfold update_drink at h
  dsimp only at h
  split at h
  · split at h
    · have h2 := congrArg Prod.snd h
      dsimp only at h2
      exact h2 ▸ (update_session_calories_restores _ sid).2.2.2
    · split at h
      · split at h
        · have h2 := congrArg Prod.snd h
          dsimp only at h2
          exact h2 ▸ (update_session_calories_restores _ sid).2.2.2
        · have h2 := congrArg Prod.snd h
          dsimp only at h2
          exact h2 ▸ (update_session_calories_restores _ sid).2.2.2
      · cases h; simp [Resp.isOk] at hok
  · cases h; simp [Resp.isOk] at hok

/-- Claim C1: after any completed `add_drink` or `update_drink` (increment,
decrement, or delete-on-decrement), the session row's cached
`total_calories` equals the sum of `calories * count` over the drink rows
currently belonging to that session. -/
theorem C1_cached_total_invariant (db : DB)
    (email sid drink_id drink_type did action : String)
    (custom_name : Option String) (cabv loz : FormNum) :
    ((add_drink db email sid drink_id drink_type custom_name cabv loz).1.isOk = true →
      session_total_ok
        (add_drink db email sid drink_id drink_type custom_name cabv loz).2 sid) ∧
    ((update_drink db email sid did action).1.isOk = true →
      session_total_ok (update_drink db email sid did action).2 sid) :=
  ⟨fun hok => add_drink_total_ok db email sid drink_id drink_type custom_name
      cabv loz _ _ rfl hok,
   fun hok => update_drink_total_ok db email sid did action _ _ rfl hok⟩

/-- A one-session database with one registered user, used to instantiate
the claims' hypotheses at concrete inputs. -/
def db1 : DB :=
  { users := [⟨"u@x", "pw", some ⟨30, 180, 70, "m"⟩⟩],
    sessions := [⟨"s1", "u@x", "Friday", "2025-01-03T20:00:00Z", 0⟩],
    drinks := [],
    exercises := [] }

theorem C1_cached_total_invariant_witness :
    (add_drink db1 "u@x" "s1" "d1" "beer" none (.floatStr 5) (.intStr 12)).1.isOk
      = true ∧
    session_total_ok
      (add_drink db1 "u@x" "s1" "d1" "beer" none (.floatStr 5) (.intStr 12)).2 "s1" :=
  ⟨rfl,
   (C1_cached_total_invariant db1 "u@x" "s1" "d1" "beer" "d1" "increment"
      none (.floatStr 5) (.intStr 12)).1 rfl⟩

/-- Claim C5: for an existing drink (unit 1 on `count`) and exercise
(step 10 on `minutes`), increment always keeps the row and raises the
quantity by the unit; a decrement whose result is ≤ 0 deletes the row and
reports removal; a decrement whose result is > 0 persists the new quantity
and recomputes the dependent aggregate (session total for drinks, per-row
`calories_burned` for exercises); any other action is a 400 validation
error with no mutation. -/
theorem C5_increment_decrement_semantics
    (db : DB) (email sid did eid action : String)
    (d : DrinkRow) (e : ExerciseRow) (met : Rat) (m : Metrics)
    (hfd : db.drinks.find? (fun x => x.id == did && x.session_id == sid) = some d)
    (hfe : db.exercises.find? (fun x => x.id == eid && x.session_id == sid) = some e)
    (hos : (db.sessions.any fun s => s.id == sid && s.user_email == email) = true)
    (hmm : (db.users.find? (fun u => u.email == email)).bind (·.metrics) = some m)
    (hme : metOf e.type = some met)
    (hpos : 0 < e.minutes) :
    ((update_drink db email sid did "increment").1 =
        .ok (.counted did d.calories "Drink count incremented" (d.count + 1)) ∧
      ∃ x ∈ (update_drink db email sid did "increment").2.drinks,
        x.id = did ∧ x.count = d.count + 1) ∧
    (d.count - 1 ≤ 0 →
      (update_drink db email sid did "decrement").1 =
        .ok (.removed "Drink removed" did) ∧
      ∀ x ∈ (update_drink db email sid did "decrement").2.drinks, x.id ≠ did) ∧
    (0 < d.count - 1 →
      (update_drink db email sid did "decrement").1 =
        .ok (.counted did d.calories "Drink count decremented" (d.count - 1)) ∧
      (∃ x ∈ (update_drink db email sid did "decrement").2.drinks,
        x.id = did ∧ x.count = d.count - 1) ∧
      session_total_ok (update_drink db email sid did "decrement").2 sid) ∧
    (action ≠ "increment" → action ≠ "decrement" →
      update_drink db email sid did action = (.err 400 "Invalid action specified", db)) ∧
    ((update_exercise db email sid eid "increment").1 =
        .ok (.updated eid (e.minutes + 10)
          (calculate_burned_calories met m.weight_kg (e.minutes + 10))) ∧
      ∃ x ∈ (update_exercise db email sid eid "increment").2.exercises,
        x.id = eid ∧ x.minutes = e.minutes + 10) ∧
    (e.minutes - 10 ≤ 0 →
      (update_exercise db email sid eid "decrement").1 = .ok (.removed eid) ∧
      ∀ x ∈ (update_exercise db email sid eid "decrement").2.exercises, x.id ≠ eid) ∧
    (0 < e.minutes - 10 →
      (update_exercise db email sid eid "decrement").1 =
        .ok (.updated eid (e.minutes - 10)
          (calculate_burned_calories met m.weight_kg (e.minutes - 10))) ∧
      ∃ x ∈ (update_exercise db email sid eid "decrement").2.exercises,
        x.id = eid ∧ x.minutes = e.minutes - 10 ∧
        x.calories_burned = calculate_burned_calories met m.weight_kg (e.minutes - 10)) ∧
    (action ≠ "increment" → action ≠ "decrement" →
      update_exercise db email sid eid action =
        (.err 400 "Invalid action specified", db)) := by
  have hpropd := List.find?_some hfd
  have hidd : d.id = did := by
    simp only [Bool.and_eq_true, beq_iff_eq] at hpropd; exact hpropd.1
  have hmemd := List.mem_of_find?_eq_some hfd
  have hprope := List.find?_some hfe
  have hide : e.id = eid := by
    simp only [Bool.and_eq_true, beq_iff_eq] at hprope; exact hprope.1
  have hmeme := List.mem_of_find?_eq_some hfe
  refine ⟨⟨?_, ?_⟩, ?_, ?_, ?_, ⟨?_, ?_⟩, ?_, ?_, ?_⟩
  · unfold update_drink
    dsimp only
    rw [hfd, hos]
    rfl
  · unfold update_drink
    dsimp only
    rw [hfd, hos]
    dsimp only
    simp only [String.reduceBEq, if_true]
    exact ⟨_, List.mem_map_of_mem _ hmemd, by simp [hidd]⟩
  · intro hle
    unfold update_drink
    dsimp only
    rw [hfd, hos]
    dsimp only
    simp only [String.reduceBEq, Bool.false_eq_true, if_false, if_true, if_pos hle]
    refine ⟨by trivial, ?_⟩
    intro x hx
    dsimp only [update_session_calories] at hx
    rw [List.mem_filter] at hx
    simpa using hx.2
  · intro hgt
    have hle : ¬ (d.count - 1 ≤ 0) := by omega
    unfold update_drink
    dsimp only
    rw [hfd, hos]
    dsimp only
    simp only [String.reduceBEq, Bool.false_eq_true, if_false, if_true, if_neg hle]
    refine ⟨by trivial, ?_, ?_⟩
    · exact ⟨_, List.mem_map_of_mem _ hmemd, by simp [hidd]⟩
    · exact (update_session_calories_restores _ sid).2.2.2
  · intro h1 h2
    unfold update_drink
    dsimp only
    rw [hfd, hos]
    simp [h1, h2]
  · have hnle : ¬ (e.minutes + 10 ≤ 0) := by intro hc; nlinarith
    unfold update_exercise
    dsimp only
    rw [hfe, hos]
    dsimp only
    rw [hmm]
    dsimp only
    rw [hme]
    dsimp only
    simp only [String.reduceBEq, Bool.false_eq_true, Bool.true_or, Bool.false_or,
      Bool.or_false, Bool.or_true, if_false, if_true, if_neg hnle]
  · have hnle : ¬ (e.minutes + 10 ≤ 0) := by intro hc; nlinarith
    unfold update_exercise
    dsimp only
    rw [hfe, hos]
    dsimp only
    rw [hmm]
    dsimp only
    rw [hme]
    dsimp only
    simp only [String.reduceBEq, Bool.false_eq_true, Bool.true_or, Bool.false_or,
      Bool.or_false, Bool.or_true, if_false, if_true, if_neg hnle]
    exact ⟨_, List.mem_map_of_mem _ hmeme, by simp [hide]⟩
  · intro hle
    unfold update_exercise
    dsimp only
    rw [hfe, hos]
    dsimp only
    rw [hmm]
    dsimp only
    rw [hme]
    dsimp only
    simp only [String.reduceBEq, Bool.false_eq_true, Bool.true_or, Bool.false_or,
      Bool.or_false, Bool.or_true, if_false, if_true, if_pos hle]
    refine ⟨by trivial, ?_⟩
    intro x hx
    rw [List.mem_filter] at hx
    simpa using hx.2
  · intro hgt
    have hle : ¬ (e.minutes - 10 ≤ 0) := by intro hc; nlinarith
    unfold update_exercise
    dsimp only
    rw [hfe, hos]
    dsimp only
    rw [hmm]
    dsimp only
    rw [hme]
    dsimp only
    simp only [String.reduceBEq, Bool.false_eq_true, Bool.true_or, Bool.false_or,
      Bool.or_false, Bool.or_true, if_false, if_true, if_neg hle]
    refine ⟨by trivial, ?_⟩
    exact ⟨_, List.mem_map_of_mem _ hmeme, by simp [hide]⟩
  · intro h1 h2
    unfold update_exercise
    dsimp only
    rw [hfe, hos]
    dsimp only
    rw [hmm]
    dsimp only
    rw [hme]
    dsimp only
    simp [h1, h2]

/-- A database with one drink (count 2) and one exercise (30 minutes),
for instantiating C5's hypotheses. -/
def db2 : DB :=
  { users := [⟨"u@x", "pw", some ⟨30, 180, 70, "m"⟩⟩],
    sessions := [⟨"s1", "u@x", "Friday", "2025-01-03T20:00:00Z", 236⟩],
    drinks := [⟨"d1", "s1", "Standard Beer (12.0oz, 5.0%)", 118, 5, 12, 2⟩],
    exercises := [⟨"e1", "s1", "running", 30, 280⟩] }

theorem C5_increment_decrement_semantics_witness :
    (update_drink db2 "u@x" "s1" "d1" "increment").1 =
      .ok (.counted "d1" 118 "Drink count incremented" 3) ∧
    update_drink db2 "u@x" "s1" "d1" "reset" =
      (.err 400 "Invalid action specified", db2) := by
  have h := C5_increment_decrement_semantics db2 "u@x" "s1" "d1" "e1" "reset"
    ⟨"d1", "s1", "Standard Beer (12.0oz, 5.0%)", 118, 5, 12, 2⟩
    ⟨"e1", "s1", "running", 30, 280⟩ 8 ⟨30, 180, 70, "m"⟩
    rfl rfl rfl rfl rfl (by norm_num)
  exact ⟨h.1.1, h.2.2.2.1 (by decide) (by decide)⟩

/-- The dashboard's per-type burn-time branch agrees with the spec's
`round((max(net,0) * 60) / (met * weight_kg))`-with-0-on-nonpositive-net
rule. -/
theorem equiv_minutes_eq (net : Int) (met w : Rat) :
    (if max 0 net > 0 then pyRound (((max 0 net : Int) : Rat) * 60 / (met * w)) else 0)
      = spec_equiv_minutes net met w := by
  unfold spec_equiv_minutes
  rcases le_or_lt net 0 with h | h
  · have h0 : max 0 net = 0 := max_eq_left h
    rw [h0, if_neg (by omega), if_pos h]
  · have h0 : max 0 net = net := max_eq_right h.le
    have h1 : max net 0 = net := max_eq_left h.le
    rw [h0, h1, if_pos h, if_neg (by omega)]

/-- Claim C6: a successful dashboard fetch returns
`net = cached consumed − live-summed burned` (with the burned total 0 when
there are no exercise rows), and for each known exercise type the
equivalent burn time `round((max(net,0)*60)/(met*weight))`, or 0 for every
type when `net ≤ 0`. -/
theorem C6_dashboard_net_calories (db : DB) (email sid : String)
    (s : SessionRow) (m : Metrics)
    (hfs : db.sessions.find? (fun x => x.id == sid && x.user_email == email) = some s)
    (hmm : (db.users.find? (fun u => u.email == email)).bind (·.metrics) = some m) :
    ∃ dash, get_dashboard_data db email sid = .ok dash ∧
      dash.total_calories_consumed = s.total_calories ∧
      dash.total_calories_burned =
        ((db.exercises.filter (fun e => e.session_id == sid)).map
          (·.calories_burned)).sum ∧
      dash.net_calories = s.total_calories - dash.total_calories_burned ∧
      (db.exercises.filter (fun e => e.session_id == sid) = [] →
        dash.total_calories_burned = 0 ∧
        dash.net_calories = s.total_calories - 0) ∧
      dash.exercise_times = EXERCISE_METS.map
        (fun p => (p.1, spec_equiv_minutes dash.net_calories p.2 m.weight_kg)) := by
  unfold get_dashboard_data
  dsimp only
  rw [hfs]
  dsimp only
  rw [hmm]
  dsimp only
  refine ⟨_, rfl, rfl, rfl, rfl, ?_, ?_⟩
  · intro h
    rw [h]
    simp
  · refine List.map_congr_left ?_
    intro p _
    rw [← equiv_minutes_eq]
    by_cases h : max 0 (s.total_calories -
        ((db.exercises.filter (fun e => e.session_id == sid)).map
          (·.calories_burned)).sum) > 0
    · rw [if_pos h, if_pos h]
    · rw [if_neg h, if_neg h]

theorem C6_dashboard_net_calories_witness :
    ∃ dash, get_dashboard_data db2 "u@x" "s1" = .ok dash ∧
      dash.net_calories = 236 - 280 := by
  obtain ⟨dash, h1, _, h3, h4, _, _⟩ :=
    C6_dashboard_net_calories db2 "u@x" "s1"
      ⟨"s1", "u@x", "Friday", "2025-01-03T20:00:00Z", 236⟩
      ⟨30, 180, 70, "m"⟩ rfl rfl
  refine ⟨dash, h1, ?_⟩
  rw [h4, h3]
  rfl

/-- Claim C8: `delete_session` returns 404 with no mutation when the id is
missing or not owned by the caller; otherwise it deletes every drink and
exercise row of the session together with the session row (and nothing
else), clears the auth session's current-session pointer exactly when it
pointed at the deleted id, and a subsequent dashboard fetch for that id
returns 404. -/
theorem C8_delete_session_cascade (db : DB) (fs : FlaskSess) (email sid : String) :
    ((∀ s, db.sessions.find? (fun x => x.id == sid) = some s → s.user_email ≠ email) →
      delete_session db fs email sid =
        (.err 404 "Session not found or unauthorized", db, fs)) ∧
    (∀ s, db.sessions.find? (fun x => x.id == sid) = some s → s.user_email = email →
      (delete_session db fs email sid).1 =
        .ok "Session and associated data deleted successfully" ∧
      (∀ d ∈ (delete_session db fs email sid).2.1.drinks,
        d.session_id ≠ sid ∧ d ∈ db.drinks) ∧
      (∀ d ∈ db.drinks, d.session_id ≠ sid →
        d ∈ (delete_session db fs email sid).2.1.drinks) ∧
      (∀ e ∈ (delete_session db fs email sid).2.1.exercises,
        e.session_id ≠ sid ∧ e ∈ db.exercises) ∧
      (∀ e ∈ db.exercises, e.session_id ≠ sid →
        e ∈ (delete_session db fs email sid).2.1.exercises) ∧
      (∀ x ∈ (delete_session db fs email sid).2.1.sessions, x.id ≠ sid) ∧
      (fs.current_session_id = some sid →
        (delete_session db fs email sid).2.2.current_session_id = none) ∧
      (fs.current_session_id ≠ some sid →
        (delete_session db fs email sid).2.2.current_session_id =
          fs.current_session_id) ∧
      (∀ email2, get_dashboard_data (delete_session db fs email sid).2.1 email2 sid =
        .err 404 "Session not found or unauthorized")) := by
  constructor
  · intro hne
    unfold delete_session
    dsimp only
    cases hf : db.sessions.find? (fun x => x.id == sid) with
    | none => rfl
    | some s =>
      have hs := hne s hf
      have hb : (s.user_email != email) = true := by simpa [bne_iff_ne] using hs
      dsimp only
      rw [hb]
      rfl
  · intro s hf heq
    have hcond : (s.user_email != email) = false := by simp [bne, heq]
    have hdel : delete_session db fs email sid =
        (.ok "Session and associated data deleted successfully",
         { db with
            drinks := db.drinks.filter (fun d => !(d.session_id == sid)),
            exercises := db.exercises.filter (fun e => !(e.session_id == sid)),
            sessions := db.sessions.filter (fun x => !(x.id == sid)) },
         if fs.current_session_id == some sid then
           { fs with current_session_id := none } else fs) := by
      unfold delete_session
      dsimp only
      rw [hf]
      dsimp only
      rw [hcond]
      rfl
    rw [hdel]
    dsimp only
    refine ⟨rfl, ?_, ?_, ?_, ?_, ?_, ?_, ?_, ?_⟩
    · intro d hd
      rw [List.mem_filter] at hd
      exact ⟨by simpa using hd.2, hd.1⟩
    · intro d hd hne
      rw [List.mem_filter]
      exact ⟨hd, by simpa using hne⟩
    · intro e he
      rw [List.mem_filter] at he
      exact ⟨by simpa using he.2, he.1⟩
    · intro e he hne
      rw [List.mem_filter]
      exact ⟨he, by simpa using hne⟩
    · intro x hx
      rw [List.mem_filter] at hx
      simpa using hx.2
    · intro hcur
      rw [if_pos (by simp [hcur])]
    · intro hcur
      rw [if_neg (by simpa using hcur)]
    · intro email2
      unfold get_dashboard_data
      dsimp only
      have hnone : (db.sessions.filter (fun x => !(x.id == sid))).find?
          (fun x => x.id == sid && x.user_email == email2) = none := by
        rw [List.find?_eq_none]
        intro x hx
        rw [List.mem_filter] at hx
        have : x.id ≠ sid := by simpa using hx.2
        simp [this]
      rw [hnone]

theorem C8_delete_session_cascade_witness :
    delete_session db2
        ⟨true, some "u@x", some "s1", true⟩ "u@x" "s1" =
      (.ok "Session and associated data deleted successfully",
       { users := db2.users, sessions := [], drinks := [], exercises := [] },
       ⟨true, some "u@x", none, true⟩) ∧
    (∀ x ∈ (delete_session db2
        ⟨true, some "u@x", some "s1", true⟩ "u@x" "s1").2.1.sessions, x.id ≠ "s1") ∧
    get_dashboard_data (delete_session db2
        ⟨true, some "u@x", some "s1", true⟩ "u@x" "s1").2.1 "u@x" "s1" =
      .err 404 "Session not found or unauthorized" := by
  have h := (C8_delete_session_cascade db2
    ⟨true, some "u@x", some "s1", true⟩ "u@x" "s1").2
    ⟨"s1", "u@x", "Friday", "2025-01-03T20:00:00Z", 236⟩ rfl rfl
  exact ⟨rfl, h.2.2.2.2.2.1, h.2.2.2.2.2.2.2.2 "u@x"⟩

/-- Claim C9: registering a duplicate email returns 409 with no change to
the store, and login returns the one 401 response both for a nonexistent
email and for an existing email with the wrong password. -/
theorem C9_register_login_errors (db : DB) (fs : FlaskSess)
    (email password pw2 : String) (u : UserRow) (remember : Bool) :
    ((db.users.find? (fun x => x.email == email)).isSome = true →
      register db fs email password = (.err 409 "User already exists", db, fs)) ∧
    (db.users.find? (fun x => x.email == email) = none →
      login db fs email password remember =
        (.err 401 "Invalid email or password", fs)) ∧
    (db.users.find? (fun x => x.email == email) = some u → u.password ≠ pw2 →
      login db fs email pw2 remember =
        (.err 401 "Invalid email or password", fs)) := by
  refine ⟨?_, ?_, ?_⟩
  · intro hsome
    unfold register
    rw [if_pos hsome]
  · intro hnone
    unfold login
    rw [hnone]
  · intro hfind hne
    have hb : (u.password != pw2) = true := by simpa [bne_iff_ne] using hne
    unfold login
    rw [hfind]
    dsimp only
    rw [hb]
    rfl

/-- An anonymous (pre-login) Flask session. -/
def fs0 : FlaskSess := ⟨false, none, none, false⟩

theorem C9_register_login_errors_witness :
    register db1 fs0 "u@x" "newpw" = (.err 409 "User already exists", db1, fs0) ∧
    login db1 fs0 "nobody@x" "pw" false =
      (.err 401 "Invalid email or password", fs0) ∧
    login db1 fs0 "u@x" "wrongpw" false =
      (.err 401 "Invalid email or password", fs0) := by
  have h := C9_register_login_errors db1 fs0 "u@x" "newpw" "wrongpw"
    ⟨"u@x", "pw", some ⟨30, 180, 70, "m"⟩⟩ false
  have h2 := C9_register_login_errors db1 fs0 "nobody@x" "pw" "pw"
    ⟨"u@x", "pw", some ⟨30, 180, 70, "m"⟩⟩ false
  exact ⟨h.1 rfl, h2.2.1 rfl, h.2.2 rfl (by decide)⟩

/-- Claim C10 (implicit frame effect): `set_user_metrics` with a complete
payload rewrites only the caller's `users.metrics` field; sessions, drinks
and exercise rows — in particular every stored `calories_burned` value,
hence every dashboard burned total — are untouched, and other users' rows
are untouched. -/
theorem C10_set_user_metrics_frame (db : DB) (email : String)
    (a hcm w : Rat) (sx : String) :
    (set_user_metrics db email ⟨some a, some hcm, some w, some sx⟩).2.exercises =
      db.exercises ∧
    (set_user_metrics db email ⟨some a, some hcm, some w, some sx⟩).2.sessions =
      db.sessions ∧
    (set_user_metrics db email ⟨some a, some hcm, some w, some sx⟩).2.drinks =
      db.drinks ∧
    (∀ u ∈ db.users, u.email ≠ email →
      u ∈ (set_user_metrics db email ⟨some a, some hcm, some w, some sx⟩).2.users) ∧
    (∀ u' ∈ (set_user_metrics db email ⟨some a, some hcm, some w, some sx⟩).2.users,
      u'.email ≠ email → u' ∈ db.users) ∧
    (∀ u ∈ db.users, u.email = email →
      ({ u with metrics := some ⟨a, hcm, w, sx⟩ } : UserRow) ∈
        (set_user_metrics db email ⟨some a, some hcm, some w, some sx⟩).2.users) ∧
    (∀ sid : String,
      ((set_user_metrics db email
          ⟨some a, some hcm, some w, some sx⟩).2.exercises.filter
        (fun e => e.session_id == sid)).map (·.calories_burned) =
      ((db.exercises.filter (fun e => e.session_id == sid)).map
        (·.calories_burned))) := by
  refine ⟨rfl, rfl, rfl, ?_, ?_, ?_, fun _ => rfl⟩
  · intro u hu hne
    unfold set_user_metrics
    dsimp only
    have hb : (u.email == email) = false := by simpa using hne
    have heq : u = (fun x => if (x.email == email) = true then
        { x with metrics := some ⟨a, hcm, w, sx⟩ } else x) u := by
      simp [hb]
    rw [heq]
    exact List.mem_map_of_mem _ hu
  · intro u' hu' hne
    unfold set_user_metrics at hu'
    dsimp only at hu'
    rw [List.mem_map] at hu'
    obtain ⟨t, ht, rfl⟩ := hu'
    by_cases hb : (t.email == email) = true
    · exfalso
      rw [if_pos hb] at hne
      exact hne (by simpa using hb)
    · rw [if_neg hb]
      exact ht
  · intro u hu heq
    unfold set_user_metrics
    dsimp only
    have hb : (u.email == email) = true := by simpa using heq
    have hrw : ({ u with metrics := some ⟨a, hcm, w, sx⟩ } : UserRow) =
        (fun x => if (x.email == email) = true then
          { x with metrics := some ⟨a, hcm, w, sx⟩ } else x) u := by
      simp [hb]
    rw [hrw]
    exact List.mem_map_of_mem _ hu

theorem C10_set_user_metrics_frame_witness :
    (set_user_metrics db2 "u@x" ⟨some 31, some 180, some 72, some "m"⟩).2.exercises =
      db2.exercises ∧
    (⟨"u@x", "pw", some ⟨31, 180, 72, "m"⟩⟩ : UserRow) ∈
      (set_user_metrics db2 "u@x" ⟨some 31, some 180, some 72, some "m"⟩).2.users := by
  have h := C10_set_user_metrics_frame db2 "u@x" 31 180 72 "m"
  exact ⟨h.1, h.2.2.2.2.2.1 ⟨"u@x", "pw", some ⟨30, 180, 70, "m"⟩⟩ (by simp [db2]) rfl⟩

/-- Claim C2 counterexample: a non-numeric shot count for a mixed drink
does NOT silently default to 1 — `float("abc")` raises `ValueError` and the
handler answers 400 with no insertion, contradicting the claim's "defaults
to 1 on any invalid input (including ... non-numeric ...) rather than
producing an error". -/
theorem C2_counterexample :
    add_drink db1 "u@x" "s1" "d1" "mixed_drink" none .missing (.badStr "abc") =
      (.err 400 "Invalid number for shots count", db1) := rfl

/-- Claim C2 as amended: for mixed_drink / mixed_drink_diet the stored ABV
and volume are pinned to 40% and 1.5 oz and the stored count is ≥ 1; the
count defaults to 1 when the field is missing/empty or its numeric value is
below 1, but input that `float()` rejects (non-numeric) or that passes the
`≥ 1` float check without being an int literal yields a 400 error with no
insertion. -/
theorem C2_amended_mixed_drink_count (db : DB) (email sid did t : String)
    (hname : Option String) (cabv inp : FormNum) (s : SessionRow)
    (hfs : db.sessions.find? (fun x => x.id == sid && x.user_email == email) = some s)
    (ht : t = "mixed_drink" ∨ t = "mixed_drink_diet") :
    (∀ c, parse_shot_count inp = some c →
      ∃ d, (add_drink db email sid did t hname cabv inp).1 = .ok d ∧
        d.abv = 40 ∧ d.volume_oz = 3/2 ∧ d.count = c ∧ 1 ≤ c) ∧
    (parse_shot_count inp = none →
      add_drink db email sid did t hname cabv inp =
        (.err 400 "Invalid number for shots count", db)) ∧
    (inp = .missing → parse_shot_count inp = some 1) ∧
    (∀ n : Int, inp = .intStr n → n < 1 → parse_shot_count inp = some 1) ∧
    (∀ q : Rat, inp = .floatStr q → q < 1 → parse_shot_count inp = some 1) ∧
    (∀ q : Rat, inp = .floatStr q → 1 ≤ q → parse_shot_count inp = none) ∧
    (∀ str, inp = .badStr str → parse_shot_count inp = none) := by
  have hnotnone : (db.sessions.find?
      (fun x => x.id == sid && x.user_email == email)).isNone = false := by
    rw [hfs]; rfl
  refine ⟨?_, ?_, ?_, ?_, ?_, ?_, ?_⟩
  · intro c hc
    rcases ht with rfl | rfl
    · unfold add_drink
      rw [hnotnone]
      simp only [Bool.false_eq_true, if_false]
      rw [show presetOf "mixed_drink" =
            some ⟨"Mixed Drink (Base Spirit)", 40, 3/2⟩ from rfl]
      dsimp only
      simp only [String.reduceBEq, Bool.true_or, Bool.or_true, Bool.or_false,
        Bool.false_or, if_true]
      rw [hc]
      exact ⟨_, rfl, rfl, rfl, rfl, parse_shot_count_ge_one inp c hc⟩
    · unfold add_drink
      rw [hnotnone]
      simp only [Bool.false_eq_true, if_false]
      rw [show presetOf "mixed_drink_diet" =
            some ⟨"Mixed Drink (Diet Base Spirit)", 40, 3/2⟩ from rfl]
      dsimp only
      simp only [String.reduceBEq, Bool.true_or, Bool.or_true, Bool.or_false,
        Bool.false_or, if_true]
      rw [hc]
      exact ⟨_, rfl, rfl, rfl, rfl, parse_shot_count_ge_one inp c hc⟩
  · intro hc
    rcases ht with rfl | rfl
    · unfold add_drink
      rw [hnotnone]
      simp only [Bool.false_eq_true, if_false]
      rw [show presetOf "mixed_drink" =
            some ⟨"Mixed Drink (Base Spirit)", 40, 3/2⟩ from rfl]
      dsimp only
      simp only [String.reduceBEq, Bool.true_or, Bool.or_true, Bool.or_false,
        Bool.false_or, if_true]
      rw [hc]
    · unfold add_drink
      rw [hnotnone]
      simp only [Bool.false_eq_true, if_false]
      rw [show presetOf "mixed_drink_diet" =
            some ⟨"Mixed Drink (Diet Base Spirit)", 40, 3/2⟩ from rfl]
      dsimp only
      simp only [String.reduceBEq, Bool.true_or, Bool.or_true, Bool.or_false,
        Bool.false_or, if_true]
      rw [hc]
  · intro h; subst h; rfl
  · intro n h hn
    subst h
    simp [parse_shot_count, show ¬ (1 ≤ n) from by omega]
  · intro q h hq
    subst h
    simp [parse_shot_count, not_le.mpr hq]
  · intro q h hq
    subst h
    simp [parse_shot_count, hq]
  · intro str h
    subst h
    rfl

theorem C2_amended_mixed_drink_count_witness :
    (∃ d, (add_drink db1 "u@x" "s1" "d1" "mixed_drink" none .missing
        (.intStr 2)).1 = .ok d ∧
      d.abv = 40 ∧ d.volume_oz = 3/2 ∧ d.count = 2 ∧ (1:Int) ≤ 2) ∧
    add_drink db1 "u@x" "s1" "d1" "mixed_drink" none .missing (.floatStr (5/2)) =
      (.err 400 "Invalid number for shots count", db1) := by
  have h := C2_amended_mixed_drink_count db1 "u@x" "s1" "d1" "mixed_drink"
    none .missing (.intStr 2)
    ⟨"s1", "u@x", "Friday", "2025-01-03T20:00:00Z", 0⟩ rfl (Or.inl rfl)
  have h2 := C2_amended_mixed_drink_count db1 "u@x" "s1" "d1" "mixed_drink"
    none .missing (.floatStr (5/2))
    ⟨"s1", "u@x", "Friday", "2025-01-03T20:00:00Z", 0⟩ rfl (Or.inl rfl)
  refine ⟨h.1 2 rfl, h2.2.1 ?_⟩
  simp [parse_shot_count, show (1:Rat) ≤ 5/2 by norm_num]

end BierBelly
